import Mathlib

/-!
Shallow embedding of the agent subsystem of the fraud-detection server
(`src/server/services/agents.ts`, class `AgentManager`), together with
theorems checking the specification's claims about it.

Modelling conventions:
* JavaScript numbers are modelled as `ℚ` (scores, amounts) — the code's
  arithmetic here is small sums, products and one division;
* `Date` values are modelled as `Int` epoch milliseconds, and
  `timestamp.getHours()` as a stored `hourOfDay : Nat` field;
* the document store is modelled as explicit lists of records, with
  `findOne` as `List.find?` and `findByIdAndUpdate` as a `map` replacing
  the record with the matching `id`;
* `Math.random()` is passed in as an explicit value `rnd` with the contract
  `0 ≤ rnd < 1`;
* opaque `metadata` bags and cosmetic fields (`filePath`, log output,
  broadcast payload contents) are omitted: no claim reads them.
-/

namespace FraudDetection

/-- A `Transaction` document (the fields the agent code reads or writes).
`analyzedAt : Option Int` models the optional `analyzedAt` date field. -/
structure Tx where
  id : String
  hash : String
  fromAddress : String
  network : String
  amount : ℚ
  hourOfDay : Nat
  timestamp : Int
  riskScore : ℚ
  analyzedAt : Option Int
deriving DecidableEq

/-- The four wallet risk tiers. -/
inductive RiskLevel where
  | low
  | medium
  | high
  | critical
deriving DecidableEq

/-- Numeric rank of a tier, for stating monotonicity. -/
def RiskLevel.toNat : RiskLevel → Nat
  | .low => 0
  | .medium => 1
  | .high => 2
  | .critical => 3

/-- The risk-tier conditional used (twice, verbatim) in
`updateWalletProfile`:
`score >= 8 ? 'critical' : score >= 6 ? 'high' : score >= 4 ? 'medium' : 'low'`. -/
def riskLevelOf (score : ℚ) : RiskLevel :=
  if 8 ≤ score then .critical
  else if 6 ≤ score then .high
  else if 4 ≤ score then .medium
  else .low

/-- `AgentManager.calculateRiskScore`, with `Math.random()` passed in as
`rnd`.  Mirrors the source line by line: amount tiers, night-hour bonus
(`hour >= 22 || hour <= 4`), jitter `rnd * 2`, clamp
`Math.min(10, Math.max(0, score))`. -/
def calculateRiskScore (tx : Tx) (rnd : ℚ) : ℚ :=
  let score : ℚ := 0
  let score : ℚ :=
    if 100000 < tx.amount then score + 3
    else if 50000 < tx.amount then score + 2
    else if 10000 < tx.amount then score + 1
    else score
  let score : ℚ := if 22 ≤ tx.hourOfDay ∨ tx.hourOfDay ≤ 4 then score + 1 else score
  let score : ℚ := score + rnd * 2
  let score : ℚ := if 0 ≤ score then score else 0
  if score ≤ 10 then score else 10

/-- Spec-side definition (section 4.2): the highest applicable amount tier. -/
def amountTierScore (amount : ℚ) : ℚ :=
  if 100000 < amount then 3
  else if 50000 < amount then 2
  else if 10000 < amount then 1
  else 0

/-- Spec-side definition (section 4.2): the night hours {22,23,0,1,2,3,4}. -/
def nightHours : List Nat := [22, 23, 0, 1, 2, 3, 4]

/-- A `WalletProfile` document (the fields the agent code reads or writes). -/
structure WalletProfile where
  id : String
  address : String
  totalTransactions : Nat
  totalValue : ℚ
  averageRiskScore : ℚ
  firstSeen : Int
  lastSeen : Int
  riskLevel : RiskLevel
deriving DecidableEq

/-- `AgentManager.updateWalletProfile`: fold one transaction into the
profile list.  `findOne({ address })` is `List.find?`; the update branch
replaces the found document (by `id`); the create branch appends a new
profile whose `id` is the address (ids are opaque; no claim reads them). -/
def updateWalletProfile (profiles : List WalletProfile) (address : String)
    (transaction : Tx) : List WalletProfile :=
  match profiles.find? (fun p => p.address == address) with
  | some existingProfile =>
      let totalTransactions : Nat := existingProfile.totalTransactions + 1
      let totalValue : ℚ := existingProfile.totalValue + transaction.amount
      let averageRiskScore : ℚ :=
        (existingProfile.averageRiskScore * existingProfile.totalTransactions
          + transaction.riskScore) / totalTransactions
      profiles.map (fun p =>
        if p.id == existingProfile.id then
          { p with
            totalTransactions := totalTransactions
            totalValue := totalValue
            averageRiskScore := averageRiskScore
            lastSeen := transaction.timestamp
            riskLevel := riskLevelOf averageRiskScore }
        else p)
  | none =>
      profiles ++
        [{ id := address
           address := address
           totalTransactions := 1
           totalValue := transaction.amount
           averageRiskScore := transaction.riskScore
           firstSeen := transaction.timestamp
           lastSeen := transaction.timestamp
           riskLevel := riskLevelOf transaction.riskScore }]

/-- An `Alert` document (the fields the agent code reads or writes; the
opaque `metadata` bag is omitted — no claim reads it). -/
structure Alert where
  title : String
  description : String
  severity : String
  type : String
  status : String
  transactionHash : String
  walletAddress : String
  riskScore : ℚ
deriving DecidableEq

/-- `AgentManager.executeRiskScoring`: take up to 50 transactions with
`analyzedAt` absent and `riskScore ≤ 0`; for each, compute the score,
write `riskScore` and `analyzedAt` to the store, then call
`updateWalletProfile(tx.fromAddress, tx)`.  Crucially, the `tx` passed to
`updateWalletProfile` is the in-memory document loaded by the query —
`Transaction.findByIdAndUpdate` does not mutate it, so its `riskScore`
field still holds the pre-update value.  The i-th scored transaction uses
jitter source value `rnd i`; `now` is the written `analyzedAt` date. -/
def executeRiskScoring (transactions : List Tx) (profiles : List WalletProfile)
    (rnd : Nat → ℚ) (now : Int) : List Tx × List WalletProfile :=
  let unanalyzedTransactions : List Tx :=
    (transactions.filter
      (fun t => t.analyzedAt.isNone && decide (t.riskScore ≤ 0))).take 50
  unanalyzedTransactions.enum.foldl
    (fun st itx =>
      let tx := itx.2
      let riskScore := calculateRiskScore tx (rnd itx.1)
      let transactions1 := st.1.map (fun t =>
        if t.id == tx.id then { t with riskScore := riskScore, analyzedAt := some now }
        else t)
      let profiles1 := updateWalletProfile st.2 tx.fromAddress tx
      (transactions1, profiles1))
    (transactions, profiles)

/-- The `Alert.create` document of `executeBehaviorAnalysis`: severity
`critical` when `riskScore ≥ 9`, else `high`. -/
def patternAnalysisAlert (tx : Tx) : Alert :=
  { title := "High Risk Transaction Pattern"
    description := "Transaction " ++ tx.hash ++ " shows suspicious behavioral patterns"
    severity := if 9 ≤ tx.riskScore then "critical" else "high"
    type := "pattern_analysis"
    status := "open"
    transactionHash := tx.hash
    walletAddress := tx.fromAddress
    riskScore := tx.riskScore }

/-- Loop body of `AgentManager.executeBehaviorAnalysis`: create a
`pattern_analysis` alert when no alert exists for the hash and
`riskScore ≥ 8`. -/
def behaviorAnalysisStep (alerts : List Alert) (tx : Tx) : List Alert :=
  let existingAlert := alerts.find? (fun a => a.transactionHash == tx.hash)
  if existingAlert.isNone && decide (8 ≤ tx.riskScore) then
    alerts ++ [patternAnalysisAlert tx]
  else alerts

/-- `AgentManager.executeBehaviorAnalysis`: query transactions of the last
`config.lookbackHours` (default 24) hours with `riskScore ≥ 7`, limit 10,
then run `behaviorAnalysisStep` over them. -/
def executeBehaviorAnalysis (lookbackHoursCfg : Option Nat) (now : Int)
    (transactions : List Tx) (alerts : List Alert) : List Alert :=
  let lookbackHours : Nat :=
    match lookbackHoursCfg with
    | some n => if n = 0 then 24 else n
    | none => 24
  let cutoffTime : Int := now - lookbackHours * 60 * 60 * 1000
  let suspiciousTransactions : List Tx :=
    (transactions.filter
      (fun t => decide (cutoffTime ≤ t.timestamp) && decide (7 ≤ t.riskScore))).take 10
  suspiciousTransactions.foldl behaviorAnalysisStep alerts

/-- The `Alert.create` document of `executeAlerting`: severity `critical`
when `riskScore ≥ 9`, `high` when `≥ 7`, else `medium`. -/
def riskThresholdAlert (tx : Tx) : Alert :=
  { title := "Risk Threshold Exceeded"
    description := "Transaction " ++ tx.hash ++ " exceeded risk threshold"
    severity := if 9 ≤ tx.riskScore then "critical"
                else if 7 ≤ tx.riskScore then "high" else "medium"
    type := "risk_threshold"
    status := "open"
    transactionHash := tx.hash
    walletAddress := tx.fromAddress
    riskScore := tx.riskScore }

/-- Loop body of `AgentManager.executeAlerting`: create a `risk_threshold`
alert when no alert exists for the hash. -/
def alertingStep (alerts : List Alert) (tx : Tx) : List Alert :=
  let existingAlert := alerts.find? (fun a => a.transactionHash == tx.hash)
  if existingAlert.isNone then
    alerts ++ [riskThresholdAlert tx]
  else alerts

/-- `AgentManager.executeAlerting`: query transactions with
`riskScore ≥ (8 if config.severityThreshold === 'high' else 6)` and
`analyzedAt` present, limit 10, then run `alertingStep` over them.
(The initial `Alert.find({status:'open'})` read is effect-free and is
omitted.) -/
def executeAlerting (severityThreshold : Option String)
    (transactions : List Tx) (alerts : List Alert) : List Alert :=
  let threshold : ℚ := if severityThreshold == some "high" then 8 else 6
  let highRiskTransactions : List Tx :=
    (transactions.filter
      (fun t => decide (threshold ≤ t.riskScore) && t.analyzedAt.isSome)).take 10
  highRiskTransactions.foldl alertingStep alerts

/-- A `Report` document (the fields the agent code reads or writes;
`parameters` and `filePath` are omitted — no claim reads them). -/
structure Report where
  id : String
  title : String
  type : String
  status : String
  format : String
  progress : Nat
  scheduledFor : Option Int
  createdAt : Int
  completedAt : Option Int
  generatedBy : String
deriving DecidableEq

/-- Final effect of `AgentManager.generateReport` on one report: the
intermediate progress writes end at `status = 'completed'`,
`progress = 100`, `completedAt` set. -/
def generateReport (now : Int) (report : Report) : Report :=
  { report with status := "completed", progress := 100, completedAt := some now }

/-- First half of `AgentManager.executeReporting`: find up to 5 reports
with `status = 'scheduled'` and `scheduledFor ≤ now`, and run
`generateReport` on each (an absent `scheduledFor` never satisfies the
`$lte` filter). -/
def processPendingReports (now : Int) (reports : List Report) : List Report :=
  let pendingReports : List Report :=
    (reports.filter (fun r =>
      r.status == "scheduled" &&
        match r.scheduledFor with
        | some t => decide (t ≤ now)
        | none => false)).take 5
  let pendingIds := pendingReports.map Report.id
  reports.map (fun r => if pendingIds.contains r.id then generateReport now r else r)

/-- The daily-summary document created by `Report.create` in
`executeReporting`: note `status: 'generating'`; the store stamps
`createdAt` with the insertion time `now` and assigns the id. -/
def dailySummaryReport (now : Int) (freshId : String) : Report :=
  { id := freshId
    title := "Daily Summary"
    type := "daily_summary"
    status := "generating"
    format := "pdf"
    progress := 0
    scheduledFor := none
    createdAt := now
    completedAt := none
    generatedBy := "system" }

/-- `AgentManager.executeReporting`: process pending scheduled reports,
then — if `findOne({type:'daily_summary', createdAt: {$gte: today}})`
finds nothing — create a daily-summary report.  The created document gets
`status = 'generating'`, `format = 'pdf'`, `generatedBy = 'system'`, and
the store stamps `createdAt = now`.  `todayStart` is the local midnight
computed by `today.setHours(0,0,0,0)`; `freshId` is the id the store
assigns to the inserted document. -/
def executeReporting (now todayStart : Int) (freshId : String)
    (reports : List Report) : List Report :=
  let reports1 := processPendingReports now reports
  let dailySummaryExists :=
    reports1.find? (fun r => r.type == "daily_summary" && decide (todayStart ≤ r.createdAt))
  if dailySummaryExists.isNone then reports1 ++ [dailySummaryReport now freshId]
  else reports1

/-- Number of daily-summary reports created on the day starting at
`todayStart` (the existence predicate of `executeReporting`). -/
def countDailySummaries (todayStart : Int) (reports : List Report) : Nat :=
  (reports.filter
    (fun r => r.type == "daily_summary" && decide (todayStart ≤ r.createdAt))).length

/-- The fixed progress ladder of `AgentManager.executeAgent`. -/
def progressUpdates : List Nat := [10, 25, 40, 55, 70, 85, 95, 100]

/-- Number of rungs of one `executeAgent` cycle at which
`executeAgentLogic` (the type-specific handler dispatch) runs: the code
guards the dispatch with `if (progress === 50)` inside the ladder walk. -/
def handlerInvocationsPerCycle : Nat :=
  (progressUpdates.filter (fun progress => progress == 50)).length

/-- `agent.intervalSeconds || 30`: JavaScript falls back to 30 when the
field is absent or 0. -/
def intervalSecondsOr30 : Option Nat → Nat
  | some n => if n = 0 then 30 else n
  | none => 30

/-- Outcome of one fire of the timer callback installed by
`AgentManager.scheduleAgent` (status and progress written last, whether an
error status event was broadcast, and the delay of the re-armed timer). -/
structure CycleOutcome where
  status : String
  progress : Nat
  errorEventEmitted : Bool
  rearmDelayMs : Option Nat
deriving DecidableEq

/-- The timer callback of `AgentManager.scheduleAgent`: on success
(`executeAgent` completed) the agent ends `active` with `progress = 0` and
the timer is re-armed at `intervalSeconds * 1000` ms; if the handler or
any store write threw, the catch block writes `status = 'error'`,
`progress = 0`, broadcasts an error status event, and re-arms at
`intervalSeconds * 2000` ms.  Either re-arm happens only while
`this.running` holds. -/
def scheduledCycle (intervalSeconds : Option Nat) (running handlerThrows : Bool) :
    CycleOutcome :=
  if handlerThrows then
    { status := "error"
      progress := 0
      errorEventEmitted := true
      rearmDelayMs :=
        if running then some (intervalSecondsOr30 intervalSeconds * 2000) else none }
  else
    { status := "active"
      progress := 0
      errorEventEmitted := false
      rearmDelayMs :=
        if running then some (intervalSecondsOr30 intervalSeconds * 1000) else none }

/-- An `Agent` document (the fields `updateAgentStatus` and
`scheduleAgent` read or write). -/
structure AgentRec where
  id : String
  type : String
  status : String
  progress : Nat
  intervalSeconds : Option Nat
  lastRun : Option Int
  nextRun : Option Int
deriving DecidableEq

/-- A partial update as passed to
`Agent.findByIdAndUpdate(agentId, updates)`: absent fields are left
unchanged. -/
structure AgentUpdate where
  status : Option String := none
  progress : Option Nat := none
  intervalSeconds : Option Nat := none
  nextRun : Option Int := none
deriving DecidableEq

/-- Apply a partial update to an agent record. -/
def applyAgentUpdate (a : AgentRec) (u : AgentUpdate) : AgentRec :=
  { a with
    status := u.status.getD a.status
    progress := u.progress.getD a.progress
    intervalSeconds :=
      match u.intervalSeconds with
      | some n => some n
      | none => a.intervalSeconds
    nextRun :=
      match u.nextRun with
      | some t => some t
      | none => a.nextRun }

/-- The timer bookkeeping of the manager for one agent: whether
`this.intervals` holds a timer for it, and with what delay it was armed. -/
structure TimerState where
  timerArmed : Bool
  armedDelayMs : Option Int
deriving DecidableEq

/-- The initial delay computed at the bottom of
`AgentManager.scheduleAgent`:
`agent.nextRun && agent.nextRun > now ? agent.nextRun.getTime() - now.getTime() : 0`. -/
def scheduleDelayMs (a : AgentRec) (now : Int) : Int :=
  match a.nextRun with
  | some t => if now < t then t - now else 0
  | none => 0

/-- `AgentManager.updateAgentStatus(agentId, updates)` for an existing
agent: apply the partial update; then, if `updates.status === 'active'`
and no timer is armed, call `scheduleAgent` (arming a timer with
`scheduleDelayMs`); if `updates.status === 'inactive'` and a timer is
armed, clear and delete it; otherwise leave the timer state unchanged. -/
def updateAgentStatus (a : AgentRec) (updates : AgentUpdate)
    (st : TimerState) (now : Int) : AgentRec × TimerState :=
  let agent := applyAgentUpdate a updates
  if updates.status == some "active" && !st.timerArmed then
    (agent, { timerArmed := true, armedDelayMs := some (scheduleDelayMs agent now) })
  else if updates.status == some "inactive" && st.timerArmed then
    (agent, { timerArmed := false, armedDelayMs := none })
  else
    (agent, st)

/-- Number of alerts recorded for a given transaction hash. -/
def countAlertsForHash (alerts : List Alert) (hash : String) : Nat :=
  (alerts.filter (fun a => a.transactionHash == hash)).length

/-- Fold a sequence of scored transactions for one address into the
profile store, one `updateWalletProfile` call per transaction (the loop
of `executeRiskScoring`, restricted to a single `fromAddress`). -/
def foldWalletTransactions (address : String) (profiles : List WalletProfile)
    (txs : List Tx) : List WalletProfile :=
  txs.foldl (fun ps tx => updateWalletProfile ps address tx) profiles

/-! Concrete documents used by witnesses and concrete evaluations. -/

/-- Scenario A transaction: amount `"150000"`, timestamp at 03:00 local,
unscored (`riskScore = 0`, `analyzedAt` absent). -/
def txScenarioA : Tx :=
  { id := "t1"
    hash := "0xhash1"
    fromAddress := "0xaddr1"
    network := "ethereum"
    amount := 150000
    hourOfDay := 3
    timestamp := 0
    riskScore := 0
    analyzedAt := none }

/-- Scenario C transaction: already analyzed, `riskScore = 9`. -/
def txScenarioC : Tx :=
  { id := "t9"
    hash := "0xhash9"
    fromAddress := "0xaddr9"
    network := "ethereum"
    amount := 1000
    hourOfDay := 12
    timestamp := 0
    riskScore := 9
    analyzedAt := some 50 }

/-- Scenario B first transaction: `riskScore = 4`. -/
def txScenarioB1 : Tx :=
  { id := "tb1"
    hash := "0xhashb1"
    fromAddress := "0xaddrB"
    network := "ethereum"
    amount := 10
    hourOfDay := 12
    timestamp := 0
    riskScore := 4
    analyzedAt := some 1 }

/-- Scenario B second transaction: `riskScore = 8`. -/
def txScenarioB2 : Tx :=
  { id := "tb2"
    hash := "0xhashb2"
    fromAddress := "0xaddrB"
    network := "ethereum"
    amount := 20
    hourOfDay := 13
    timestamp := 5
    riskScore := 8
    analyzedAt := some 2 }

/-- An inactive agent whose `nextRun` lies 5000 ms in the future. -/
def agentFutureNextRun : AgentRec :=
  { id := "a1"
    type := "risk_scoring"
    status := "inactive"
    progress := 0
    intervalSeconds := some 30
    lastRun := none
    nextRun := some 5000 }

/-! Helper lemmas. -/

/-- With a jitter source value in `[0,1)`, neither clamp of
`calculateRiskScore` fires: the result is the plain sum of the amount
tier, the night bonus and the jitter `rnd * 2`. -/
lemma calculateRiskScore_unclamped (tx : Tx) (rnd : ℚ) (h0 : 0 ≤ rnd) (h1 : rnd < 1) :
    calculateRiskScore tx rnd =
      amountTierScore tx.amount +
        (if 22 ≤ tx.hourOfDay ∨ tx.hourOfDay ≤ 4 then (1 : ℚ) else 0) + rnd * 2 := by
  simp only [calculateRiskScore, amountTierScore]
  split_ifs <;> linarith

/-- The amount tier lies in `[0, 3]`. -/
lemma amountTierScore_bounds (amount : ℚ) :
    0 ≤ amountTierScore amount ∧ amountTierScore amount ≤ 3 := by
  unfold amountTierScore
  split_ifs <;> norm_num

/-- For an hour of day below 24, membership in the spec's night-hour set
coincides with the code's `hour >= 22 || hour <= 4` test. -/
lemma mem_nightHours_iff (h : Nat) (hlt : h < 24) :
    h ∈ nightHours ↔ 22 ≤ h ∨ h ≤ 4 := by
  simp only [nightHours, List.mem_cons, List.not_mem_nil, or_false]
  omega

/-! Claim theorems. -/

/-- C1: the spec claims the type-specific handler is invoked exactly once
per `executeAgent` cycle, at the 4th rung (value 55) of the ladder
`[10,25,40,55,70,85,95,100]`.  The code guards the dispatch with
`if (progress === 50)`, and 50 never occurs in the ladder, so
`executeAgentLogic` is invoked zero times per cycle — the dispatch is
dead code. -/
theorem C1_handler_dispatch_never_fires :
    handlerInvocationsPerCycle = 0 ∧
    progressUpdates[3]? = some 55 ∧
    50 ∉ progressUpdates ∧
    handlerInvocationsPerCycle ≠ 1 := by
  decide

/-- C4: for every transaction and every jitter source value in `[0,1)`,
`calculateRiskScore` returns strictly less than 6; neither clamp is
active (the result equals the unclamped sum), and the thresholds 6, 7 and
8 used by the alerting and behavior-analysis handlers are unreachable. -/
theorem C4_score_strictly_below_six (tx : Tx) (rnd : ℚ) (h0 : 0 ≤ rnd) (h1 : rnd < 1) :
    calculateRiskScore tx rnd < 6 ∧
    calculateRiskScore tx rnd =
      amountTierScore tx.amount +
        (if 22 ≤ tx.hourOfDay ∨ tx.hourOfDay ≤ 4 then (1 : ℚ) else 0) + rnd * 2 ∧
    ¬ 6 ≤ calculateRiskScore tx rnd ∧
    ¬ 7 ≤ calculateRiskScore tx rnd ∧
    ¬ 8 ≤ calculateRiskScore tx rnd := by
  have hd := calculateRiskScore_unclamped tx rnd h0 h1
  have ht := amountTierScore_bounds tx.amount
  have hn : (if 22 ≤ tx.hourOfDay ∨ tx.hourOfDay ≤ 4 then (1 : ℚ) else 0) ≤ 1 := by
    split_ifs <;> norm_num
  have hlt : calculateRiskScore tx rnd < 6 := by rw [hd]; linarith [ht.2]
  exact ⟨hlt, hd, fun hc => by linarith, fun hc => by linarith, fun hc => by linarith⟩

/-- Witness for C4 at the Scenario A transaction with jitter source 1/2. -/
theorem C4_witness :
    calculateRiskScore txScenarioA (1 / 2) < 6 :=
  (C4_score_strictly_below_six txScenarioA (1 / 2) (by norm_num) (by norm_num)).1

/-- C9: the risk scorer is base 0 plus the highest applicable amount tier,
plus 1 when the local hour lies in {22,23,0,1,2,3,4}, plus the jitter
`rnd * 2 ∈ [0,2)`, clamped to `[0,10]`; for amount 150000 at hour 3 the
result is `4 + jitter`. -/
theorem C9_risk_scorer_components (tx : Tx) (rnd : ℚ)
    (hh : tx.hourOfDay < 24) (h0 : 0 ≤ rnd) (h1 : rnd < 1) :
    calculateRiskScore tx rnd =
      amountTierScore tx.amount +
        (if tx.hourOfDay ∈ nightHours then (1 : ℚ) else 0) + rnd * 2 ∧
    0 ≤ calculateRiskScore tx rnd ∧
    calculateRiskScore tx rnd ≤ 10 ∧
    (tx.amount = 150000 → tx.hourOfDay = 3 → calculateRiskScore tx rnd = 4 + rnd * 2) := by
  have hd := calculateRiskScore_unclamped tx rnd h0 h1
  have ht := amountTierScore_bounds tx.amount
  have hif : (if tx.hourOfDay ∈ nightHours then (1 : ℚ) else 0)
      = (if 22 ≤ tx.hourOfDay ∨ tx.hourOfDay ≤ 4 then (1 : ℚ) else 0) :=
    if_congr (mem_nightHours_iff _ hh) rfl rfl
  have hn0 : 0 ≤ (if 22 ≤ tx.hourOfDay ∨ tx.hourOfDay ≤ 4 then (1 : ℚ) else 0) := by
    split_ifs <;> norm_num
  have hn1 : (if 22 ≤ tx.hourOfDay ∨ tx.hourOfDay ≤ 4 then (1 : ℚ) else 0) ≤ 1 := by
    split_ifs <;> norm_num
  refine ⟨by rw [hif, hd], ?_, ?_, ?_⟩
  · rw [hd]; linarith [ht.1]
  · rw [hd]; linarith [ht.2]
  · intro ha h3
    rw [hd, ha, h3]
    norm_num [amountTierScore]

/-- Witness for C9 at the Scenario A transaction with jitter source 1/2. -/
theorem C9_witness :
    calculateRiskScore txScenarioA (1 / 2) = 4 + (1 / 2 : ℚ) * 2 :=
  (C9_risk_scorer_components txScenarioA (1 / 2) (by decide) (by norm_num)
    (by norm_num)).2.2.2 (by norm_num [txScenarioA]) (by decide)

/-- C10: the risk-tier step function is monotone non-decreasing, the
boundary values 4, 6 and 8 map to `medium`, `high` and `critical`, and
the tiers are characterised by inclusive lower-bound thresholds checked
highest-first. -/
theorem C10_tier_monotone :
    (∀ x y : ℚ, x ≤ y → (riskLevelOf x).toNat ≤ (riskLevelOf y).toNat) ∧
    riskLevelOf 4 = RiskLevel.medium ∧
    riskLevelOf 6 = RiskLevel.high ∧
    riskLevelOf 8 = RiskLevel.critical ∧
    (∀ x : ℚ,
      (riskLevelOf x = RiskLevel.critical ↔ 8 ≤ x) ∧
      (riskLevelOf x = RiskLevel.high ↔ 6 ≤ x ∧ x < 8) ∧
      (riskLevelOf x = RiskLevel.medium ↔ 4 ≤ x ∧ x < 6) ∧
      (riskLevelOf x = RiskLevel.low ↔ x < 4)) := by
  refine ⟨?_, by norm_num [riskLevelOf], by norm_num [riskLevelOf],
    by norm_num [riskLevelOf], ?_⟩
  · intro x y hxy
    unfold riskLevelOf
    split_ifs <;> simp_all [RiskLevel.toNat] <;> linarith
  · intro x
    unfold riskLevelOf
    split_ifs with h8 h6 h4 <;>
      refine ⟨⟨fun hc => ?_, fun hc => ?_⟩, ⟨fun hc => ?_, fun hc => ?_⟩,
        ⟨fun hc => ?_, fun hc => ?_⟩, ⟨fun hc => ?_, fun hc => ?_⟩⟩ <;>
      first
        | rfl
        | linarith
        | exact ⟨by linarith, by linarith⟩
        | simp at hc

/-- Witness for C10 monotonicity at the inputs 3 and 5. -/
theorem C10_witness :
    (riskLevelOf 3).toNat ≤ (riskLevelOf 5).toNat :=
  C10_tier_monotone.1 3 5 (by norm_num)

/-- C7: when the handler (or any store write of the cycle) throws, the
catch block of `scheduleAgent`'s timer callback writes `status = 'error'`
and `progress = 0`, broadcasts an error status event, and re-arms the
timer at `2 × intervalSeconds` seconds (`intervalSeconds * 2000` ms);
a successful cycle instead ends with `status = 'active'` and the normal
`intervalSeconds` delay, so the agent returns to `active` only on the
next successful cycle. -/
theorem C7_error_backoff (n : Nat) (hn : n ≠ 0) :
    (scheduledCycle (some n) true true).status = "error" ∧
    (scheduledCycle (some n) true true).progress = 0 ∧
    (scheduledCycle (some n) true true).errorEventEmitted = true ∧
    (scheduledCycle (some n) true true).rearmDelayMs = some (2 * n * 1000) ∧
    (scheduledCycle (some n) true true).status ≠ "active" ∧
    (scheduledCycle (some n) true false).status = "active" ∧
    (scheduledCycle (some n) true false).rearmDelayMs = some (n * 1000) := by
  have hdelay : intervalSecondsOr30 (some n) = n := by simp [intervalSecondsOr30, hn]
  refine ⟨rfl, rfl, rfl, ?_, ?_, rfl, ?_⟩
  · simp [scheduledCycle, hdelay]
    ring
  · simp [scheduledCycle]
  · simp [scheduledCycle, hdelay]

/-- Witness for C7 at `intervalSeconds = 30`. -/
theorem C7_witness :
    (scheduledCycle (some 30) true true).status = "error" ∧
    (scheduledCycle (some 30) true true).progress = 0 ∧
    (scheduledCycle (some 30) true true).errorEventEmitted = true ∧
    (scheduledCycle (some 30) true true).rearmDelayMs = some (2 * 30 * 1000) ∧
    (scheduledCycle (some 30) true true).status ≠ "active" ∧
    (scheduledCycle (some 30) true false).status = "active" ∧
    (scheduledCycle (some 30) true false).rearmDelayMs = some (30 * 1000) :=
  C7_error_backoff 30 (by decide)

/-- C2: the code-bug exhibit for the risk-scoring handler.  On the
Scenario A input (one unscored transaction, amount 150000, 03:00 local,
fresh address) with jitter source 1/2, the transaction's stored
`riskScore` becomes `3 + 1 + 1 = 5` and `analyzedAt` is set — but the
wallet profile is created from the stale in-memory document, so its
`averageRiskScore` is the old score 0 (and `riskLevel` is `low`), not the
newly computed 5 the claim requires. -/
theorem C2_stale_score_folded_into_profile :
    (executeRiskScoring [txScenarioA] [] (fun _ => 1 / 2) 1000).1.map Tx.riskScore = [5] ∧
    (executeRiskScoring [txScenarioA] [] (fun _ => 1 / 2) 1000).1.map Tx.analyzedAt
      = [some 1000] ∧
    (executeRiskScoring [txScenarioA] [] (fun _ => 1 / 2) 1000).2.map
      WalletProfile.totalTransactions = [1] ∧
    (executeRiskScoring [txScenarioA] [] (fun _ => 1 / 2) 1000).2.map
      WalletProfile.averageRiskScore = [0] ∧
    (executeRiskScoring [txScenarioA] [] (fun _ => 1 / 2) 1000).2.map
      WalletProfile.riskLevel = [RiskLevel.low] ∧
    (0 : ℚ) ≠ 5 := by
  refine ⟨?_, ?_, ?_, ?_, ?_, by norm_num⟩ <;>
    norm_num [executeRiskScoring, txScenarioA, calculateRiskScore,
      updateWalletProfile, riskLevelOf]

/-- Counterexample for C6: for an agent whose `nextRun` lies 5000 ms in
the future, activating it arms the timer with delay 5000 ms, not 0; and a
partial update that leaves an already-`active` agent active (without a
`status` field) arms no timer even though the resulting status is
`active` and none is armed. -/
theorem C6_counterexample :
    ((updateAgentStatus agentFutureNextRun { status := some "active" }
        { timerArmed := false, armedDelayMs := none } 0).2.timerArmed = true ∧
      (updateAgentStatus agentFutureNextRun { status := some "active" }
        { timerArmed := false, armedDelayMs := none } 0).2.armedDelayMs = some 5000 ∧
      (5000 : Int) ≠ 0) ∧
    ((updateAgentStatus { agentFutureNextRun with status := "active" }
        { progress := some 50 } { timerArmed := false, armedDelayMs := none } 0).1.status
        = "active" ∧
      (updateAgentStatus { agentFutureNextRun with status := "active" }
        { progress := some 50 } { timerArmed := false, armedDelayMs := none } 0).2.timerArmed
        = false) := by
  decide

/-- C6 (amended): `updateAgentStatus` applies the partial update; when
`updates.status` is `'active'` and no timer is armed it arms one with
delay `nextRun − now` if `nextRun` is in the future and 0 otherwise (not
always 0); when `updates.status` is `'inactive'` and a timer is armed it
cancels it; otherwise the timer state is untouched. -/
theorem C6_updateAgentStatus_spec (a : AgentRec) (u : AgentUpdate)
    (st : TimerState) (now : Int) :
    (updateAgentStatus a u st now).1 = applyAgentUpdate a u ∧
    (u.status = some "active" → st.timerArmed = false →
      (updateAgentStatus a u st now).2 =
        { timerArmed := true
          armedDelayMs := some (scheduleDelayMs (applyAgentUpdate a u) now) }) ∧
    (u.status = some "inactive" → st.timerArmed = true →
      (updateAgentStatus a u st now).2 = { timerArmed := false, armedDelayMs := none }) ∧
    (¬ ((u.status = some "active" ∧ st.timerArmed = false) ∨
        (u.status = some "inactive" ∧ st.timerArmed = true)) →
      (updateAgentStatus a u st now).2 = st) ∧
    (∀ t : Int, (applyAgentUpdate a u).nextRun = some t → now < t →
      scheduleDelayMs (applyAgentUpdate a u) now = t - now) ∧
    (∀ t : Int, (applyAgentUpdate a u).nextRun = some t → t ≤ now →
      scheduleDelayMs (applyAgentUpdate a u) now = 0) ∧
    ((applyAgentUpdate a u).nextRun = none →
      scheduleDelayMs (applyAgentUpdate a u) now = 0) := by
  refine ⟨?_, ?_, ?_, ?_, ?_, ?_, ?_⟩
  · unfold updateAgentStatus
    split_ifs <;> rfl
  · intro h1 h2
    simp [updateAgentStatus, h1, h2]
  · intro h1 h2
    simp [updateAgentStatus, h1, h2]
  · intro hno
    rcases hs : u.status with _ | s
    · simp [updateAgentStatus, hs]
    · rcases ht : st.timerArmed with _ | _ <;>
        simp [hs, ht] at hno <;>
        simp [updateAgentStatus, hs, ht, hno]
  · intro t ht hlt
    simp [scheduleDelayMs, ht, hlt]
  · intro t ht hle
    simp [scheduleDelayMs, ht]
    omega
  · intro ht
    simp [scheduleDelayMs, ht]

/-- Witness for C6 (amended) at the future-`nextRun` agent: activating it
arms the timer with delay `5000 − 0`. -/
theorem C6_witness :
    (updateAgentStatus agentFutureNextRun { status := some "active" }
        { timerArmed := false, armedDelayMs := none } 0).2 =
      { timerArmed := true
        armedDelayMs := some (scheduleDelayMs
          (applyAgentUpdate agentFutureNextRun { status := some "active" }) 0) } :=
  (C6_updateAgentStatus_spec agentFutureNextRun { status := some "active" }
    { timerArmed := false, armedDelayMs := none } 0).2.1 rfl rfl

/-- Counterexample for C5: running the reporting handler on an empty
report store creates the daily-summary report with status `'generating'`,
not `'scheduled'` as claimed. -/
theorem C5_counterexample :
    (executeReporting 100 0 "r1" []).map Report.type = ["daily_summary"] ∧
    (executeReporting 100 0 "r1" []).map Report.status = ["generating"] ∧
    "generating" ≠ "scheduled" := by
  refine ⟨?_, ?_, by decide⟩ <;>
    norm_num [executeReporting, processPendingReports, dailySummaryReport]

/-- The daily-summary count is a `countP`. -/
lemma countDailySummaries_eq_countP (t : Int) (rs : List Report) :
    countDailySummaries t rs =
      rs.countP (fun r => r.type == "daily_summary" && decide (t ≤ r.createdAt)) := by
  unfold countDailySummaries
  rw [List.countP_eq_length_filter]

/-- Processing pending reports rewrites only `status`, `progress` and
`completedAt`, so it leaves the daily-summary count unchanged. -/
lemma countDailySummaries_processPendingReports (t now : Int) (rs : List Report) :
    countDailySummaries t (processPendingReports now rs) = countDailySummaries t rs := by
  rw [countDailySummaries_eq_countP, countDailySummaries_eq_countP]
  simp only [processPendingReports]
  rw [List.countP_map]
  refine List.countP_congr ?_
  intro r _
  simp only [Function.comp]
  split_ifs <;> simp [generateReport]

/-- C5 (amended): the reporting handler creates, at most once per
calendar day, a daily-summary report in the `generating` status (not
`scheduled`) when none exists for that day: if no daily-summary report of
the day exists it appends exactly one, with `status = 'generating'` and
`createdAt = now`; if one exists it appends nothing; and the count of the
day's daily-summary reports after a run never exceeds
`max (previous count) 1`. -/
theorem C5_daily_summary_once (now todayStart : Int) (freshId : String) (rs : List Report) :
    (countDailySummaries todayStart rs = 0 →
      executeReporting now todayStart freshId rs =
        processPendingReports now rs ++ [dailySummaryReport now freshId] ∧
      (dailySummaryReport now freshId).type = "daily_summary" ∧
      (dailySummaryReport now freshId).status = "generating" ∧
      (dailySummaryReport now freshId).createdAt = now) ∧
    (1 ≤ countDailySummaries todayStart rs →
      executeReporting now todayStart freshId rs = processPendingReports now rs) ∧
    (todayStart ≤ now →
      countDailySummaries todayStart (executeReporting now todayStart freshId rs)
        ≤ max (countDailySummaries todayStart rs) 1) := by
  have hpp := countDailySummaries_processPendingReports todayStart now rs
  have hpart1 : countDailySummaries todayStart rs = 0 →
      executeReporting now todayStart freshId rs =
        processPendingReports now rs ++ [dailySummaryReport now freshId] := by
    intro h0
    have hz : (processPendingReports now rs).countP
        (fun r => r.type == "daily_summary" && decide (todayStart ≤ r.createdAt)) = 0 := by
      rw [← countDailySummaries_eq_countP, hpp]
      exact h0
    have hfind : (processPendingReports now rs).find?
        (fun r => r.type == "daily_summary" && decide (todayStart ≤ r.createdAt)) = none := by
      rw [List.find?_eq_none]
      exact List.countP_eq_zero.mp hz
    simp only [executeReporting, hfind, Option.isNone_none, if_true]
  have hpart2 : 1 ≤ countDailySummaries todayStart rs →
      executeReporting now todayStart freshId rs = processPendingReports now rs := by
    intro h1
    have hposc : 0 < (processPendingReports now rs).countP
        (fun r => r.type == "daily_summary" && decide (todayStart ≤ r.createdAt)) := by
      rw [← countDailySummaries_eq_countP, hpp]
      omega
    have hsome : ((processPendingReports now rs).find?
        (fun r => r.type == "daily_summary" && decide (todayStart ≤ r.createdAt))).isSome := by
      rw [List.find?_isSome]
      exact List.countP_pos_iff.mp hposc
    obtain ⟨v, hv⟩ := Option.isSome_iff_exists.mp hsome
    simp only [executeReporting, hv, Option.isNone_some, Bool.false_eq_true, if_false]
  refine ⟨fun h0 => ⟨hpart1 h0, rfl, rfl, rfl⟩, hpart2, ?_⟩
  intro hnow
  rcases Nat.eq_zero_or_pos (countDailySummaries todayStart rs) with h0 | hpos
  · rw [hpart1 h0, countDailySummaries_eq_countP, List.countP_append, ← countDailySummaries_eq_countP, hpp, h0]
    have hone : [dailySummaryReport now freshId].countP
        (fun r => r.type == "daily_summary" && decide (todayStart ≤ r.createdAt)) = 1 := by
      simp [dailySummaryReport, hnow]
    rw [hone]
    exact le_max_right _ _
  · rw [hpart2 hpos, hpp]
    exact le_max_left _ _

/-- Witness for C5 (amended) on an empty report store. -/
theorem C5_witness :
    executeReporting 100 0 "r1" [] =
      processPendingReports 100 [] ++ [dailySummaryReport 100 "r1"] ∧
    (dailySummaryReport 100 "r1").type = "daily_summary" ∧
    (dailySummaryReport 100 "r1").status = "generating" ∧
    (dailySummaryReport 100 "r1").createdAt = 100 :=
  (C5_daily_summary_once 100 0 "r1" []).1 rfl

/-- Each alerting-loop step either leaves the alert list unchanged or,
when no alert for the transaction's hash exists, appends exactly one
alert carrying that hash. -/
lemma alertingStep_shape (s : List Alert) (tx : Tx) :
    alertingStep s tx = s ∨
    (s.find? (fun a => a.transactionHash == tx.hash) = none ∧
      ∃ na : Alert, na.transactionHash = tx.hash ∧ alertingStep s tx = s ++ [na]) := by
  unfold alertingStep
  by_cases hf : (s.find? (fun a => a.transactionHash == tx.hash)).isNone
  · exact Or.inr ⟨Option.isNone_iff_eq_none.mp hf,
      ⟨riskThresholdAlert tx, rfl, by simp [hf]⟩⟩
  · exact Or.inl (by simp [hf])

/-- Same shape for the behavior-analysis loop step. -/
lemma behaviorAnalysisStep_shape (s : List Alert) (tx : Tx) :
    behaviorAnalysisStep s tx = s ∨
    (s.find? (fun a => a.transactionHash == tx.hash) = none ∧
      ∃ na : Alert, na.transactionHash = tx.hash ∧ behaviorAnalysisStep s tx = s ++ [na]) := by
  unfold behaviorAnalysisStep
  by_cases hf : ((s.find? (fun a => a.transactionHash == tx.hash)).isNone
      && decide (8 ≤ tx.riskScore)) = true
  · have hn : (s.find? (fun a => a.transactionHash == tx.hash)).isNone := by
      have := hf
      simp only [Bool.and_eq_true] at this
      exact this.1
    exact Or.inr ⟨Option.isNone_iff_eq_none.mp hn,
      ⟨patternAnalysisAlert tx, rfl, by simp [hf]⟩⟩
  · exact Or.inl (by simp [hf])

/-- Folding a guarded-append step over any transaction list never raises
the number of alerts for a hash above `max (initial count) 1`. -/
lemma foldl_guarded_countAlerts_le (step : List Alert → Tx → List Alert)
    (hstep : ∀ s tx, step s tx = s ∨
      (s.find? (fun a => a.transactionHash == tx.hash) = none ∧
        ∃ na : Alert, na.transactionHash = tx.hash ∧ step s tx = s ++ [na]))
    (txs : List Tx) :
    ∀ (s : List Alert) (hash : String),
      countAlertsForHash (txs.foldl step s) hash ≤ max (countAlertsForHash s hash) 1 := by
  induction txs with
  | nil =>
    intro s hash
    exact le_max_left _ _
  | cons tx txs ih =>
    intro s hash
    rw [List.foldl_cons]
    rcases hstep s tx with heq | ⟨hfind, na, hna, heq⟩
    · rw [heq]
      exact ih s hash
    · rw [heq]
      refine le_trans (ih (s ++ [na]) hash) (max_le ?_ (le_max_right _ _))
      by_cases hh : na.transactionHash = hash
      · have htx : hash = tx.hash := by rw [← hh, hna]
        have hnil : s.filter (fun a => a.transactionHash == hash) = [] := by
          rw [List.filter_eq_nil_iff]
          intro a ha
          rw [htx]
          exact List.find?_eq_none.mp hfind a ha
        have h1 : countAlertsForHash (s ++ [na]) hash = 1 := by
          simp [countAlertsForHash, List.filter_append, hnil, hh]
        rw [h1]
        exact le_max_right _ _
      · have h2 : countAlertsForHash (s ++ [na]) hash = countAlertsForHash s hash := by
          simp [countAlertsForHash, List.filter_append, hh]
        rw [h2]
        exact le_max_left _ _

/-- C8: running the alerting or behavior-analysis handler twice in a row
over an unchanged transaction set leaves at most one alert per
transaction hash (the existence check by `transactionHash` dedups both
within and across runs); and two consecutive alerting runs over a single
analysed transaction with `riskScore = 9` leave exactly one alert, with
severity `critical`. -/
theorem C8_alert_dedup :
    (∀ (severityThreshold : Option String) (txs : List Tx) (hash : String),
      countAlertsForHash
        (executeAlerting severityThreshold txs (executeAlerting severityThreshold txs []))
        hash ≤ 1) ∧
    (∀ (lookbackHoursCfg : Option Nat) (now : Int) (txs : List Tx) (hash : String),
      countAlertsForHash
        (executeBehaviorAnalysis lookbackHoursCfg now txs
          (executeBehaviorAnalysis lookbackHoursCfg now txs [])) hash ≤ 1) ∧
    (executeAlerting none [txScenarioC] (executeAlerting none [txScenarioC] [])).map
      Alert.severity = ["critical"] ∧
    (executeAlerting none [txScenarioC] (executeAlerting none [txScenarioC] [])).map
      Alert.transactionHash = ["0xhash9"] := by
  have hempty : ∀ hash : String, countAlertsForHash [] hash ≤ 1 := by
    intro hash
    simp [countAlertsForHash]
  refine ⟨?_, ?_, ?_, ?_⟩
  · intro cfg txs hash
    have hkey : ∀ (txs' : List Tx) (s : List Alert),
        countAlertsForHash s hash ≤ 1 →
        countAlertsForHash (txs'.foldl alertingStep s) hash ≤ 1 :=
      fun txs' s hs =>
        le_trans (foldl_guarded_countAlerts_le alertingStep alertingStep_shape txs' s hash)
          (max_le hs le_rfl)
    simp only [executeAlerting]
    exact hkey _ _ (hkey _ _ (hempty hash))
  · intro cfgL now txs hash
    have hkey : ∀ (txs' : List Tx) (s : List Alert),
        countAlertsForHash s hash ≤ 1 →
        countAlertsForHash (txs'.foldl behaviorAnalysisStep s) hash ≤ 1 :=
      fun txs' s hs =>
        le_trans
          (foldl_guarded_countAlerts_le behaviorAnalysisStep behaviorAnalysisStep_shape txs' s
            hash)
          (max_le hs le_rfl)
    simp only [executeBehaviorAnalysis]
    exact hkey _ _ (hkey _ _ (hempty hash))
  · norm_num [executeAlerting, alertingStep, riskThresholdAlert, txScenarioC]
  · norm_num [executeAlerting, alertingStep, riskThresholdAlert, txScenarioC]

/-- `updateWalletProfile` on a one-profile store whose profile matches
the address: the existing-profile branch bumps the count, adds the amount
and updates the running mean in place. -/
lemma updateWalletProfile_singleton (address : String) (p : WalletProfile)
    (hp : p.address = address) (tx : Tx) :
    updateWalletProfile [p] address tx =
      [{ p with
          totalTransactions := p.totalTransactions + 1
          totalValue := p.totalValue + tx.amount
          averageRiskScore :=
            (p.averageRiskScore * p.totalTransactions + tx.riskScore)
              / ((p.totalTransactions + 1 : ℕ) : ℚ)
          lastSeen := tx.timestamp
          riskLevel := riskLevelOf
            ((p.averageRiskScore * p.totalTransactions + tx.riskScore)
              / ((p.totalTransactions + 1 : ℕ) : ℚ)) }] := by
  unfold updateWalletProfile
  have hfind : ([p].find? fun q => q.address == address) = some p := by
    simp [List.find?, hp]
  rw [hfind]
  simp

/-- Product form of the running mean: folding transactions one at a time
into a single matching profile accumulates exactly the sum of the folded
scores. -/
lemma foldWallet_singleton_mean (address : String) :
    ∀ (txs : List Tx) (p : WalletProfile), p.address = address →
      ∃ q : WalletProfile,
        foldWalletTransactions address [p] txs = [q] ∧
        q.address = address ∧
        q.totalTransactions = p.totalTransactions + txs.length ∧
        q.averageRiskScore * (q.totalTransactions : ℚ) =
          p.averageRiskScore * (p.totalTransactions : ℚ) + (txs.map Tx.riskScore).sum := by
  intro txs
  induction txs with
  | nil =>
    intro p hp
    exact ⟨p, rfl, hp, by simp, by simp⟩
  | cons tx txs ih =>
    intro p hp
    obtain ⟨q, hfold, hqa, hqc, hqs⟩ := ih
      { p with
          totalTransactions := p.totalTransactions + 1
          totalValue := p.totalValue + tx.amount
          averageRiskScore :=
            (p.averageRiskScore * p.totalTransactions + tx.riskScore)
              / ((p.totalTransactions + 1 : ℕ) : ℚ)
          lastSeen := tx.timestamp
          riskLevel := riskLevelOf
            ((p.averageRiskScore * p.totalTransactions + tx.riskScore)
              / ((p.totalTransactions + 1 : ℕ) : ℚ)) } hp
    refine ⟨q, ?_, hqa, ?_, ?_⟩
    · rw [← hfold]
      simp only [foldWalletTransactions, List.foldl_cons]
      rw [updateWalletProfile_singleton address p hp tx]
    · rw [hqc]
      simp only [List.length_cons]
      omega
    · rw [hqs]
      have hne : ((p.totalTransactions + 1 : ℕ) : ℚ) ≠ 0 :=
        Nat.cast_ne_zero.mpr (Nat.succ_ne_zero _)
      simp only [List.map_cons, List.sum_cons]
      field_simp
      ring

/-- C3: for any address and any nonempty sequence of scored transactions
folded by the Wallet Aggregator (create on first fold, incremental mean
`(old × count + new) / (count + 1)` thereafter), the stored
`averageRiskScore` equals the batch arithmetic mean of the folded scores
exactly — in particular within the spec's tolerance of 1e-9. -/
theorem C3_wallet_mean_invariant (address : String) (txs : List Tx) (hne : txs ≠ []) :
    ∃ q : WalletProfile,
      foldWalletTransactions address [] txs = [q] ∧
      q.totalTransactions = txs.length ∧
      q.averageRiskScore = (txs.map Tx.riskScore).sum / (txs.length : ℚ) ∧
      |q.averageRiskScore - (txs.map Tx.riskScore).sum / (txs.length : ℚ)|
        ≤ 1 / 1000000000 := by
  obtain ⟨tx, rest, rfl⟩ := List.exists_cons_of_ne_nil hne
  obtain ⟨q, hfold, hqa, hqc, hqs⟩ := foldWallet_singleton_mean address rest
    { id := address
      address := address
      totalTransactions := 1
      totalValue := tx.amount
      averageRiskScore := tx.riskScore
      firstSeen := tx.timestamp
      lastSeen := tx.timestamp
      riskLevel := riskLevelOf tx.riskScore } rfl
  have hstep : foldWalletTransactions address [] (tx :: rest) =
      foldWalletTransactions address
        [{ id := address
           address := address
           totalTransactions := 1
           totalValue := tx.amount
           averageRiskScore := tx.riskScore
           firstSeen := tx.timestamp
           lastSeen := tx.timestamp
           riskLevel := riskLevelOf tx.riskScore }] rest := by
    simp only [foldWalletTransactions, List.foldl_cons]
    rfl
  have hcount : q.totalTransactions = (tx :: rest).length := by
    simp only [List.length_cons]
    simp at hqc
    omega
  have hlen : (((tx :: rest).length : ℕ) : ℚ) ≠ 0 := by
    simp only [List.length_cons, Nat.cast_add, Nat.cast_one]
    positivity
  have hsum : q.averageRiskScore * ((tx :: rest).length : ℚ)
      = ((tx :: rest).map Tx.riskScore).sum := by
    rw [← hcount, hqs]
    simp [List.map_cons, List.sum_cons]
  have havg : q.averageRiskScore
      = ((tx :: rest).map Tx.riskScore).sum / ((tx :: rest).length : ℚ) := by
    rw [eq_div_iff hlen]
    exact hsum
  refine ⟨q, hstep.trans hfold, hcount, havg, ?_⟩
  rw [havg]
  simp

/-- Witness for C3 at the Scenario B transactions (scores 4 and 8). -/
theorem C3_witness :
    ∃ q : WalletProfile,
      foldWalletTransactions "0xaddrB" [] [txScenarioB1, txScenarioB2] = [q] ∧
      q.totalTransactions = [txScenarioB1, txScenarioB2].length ∧
      q.averageRiskScore = ([txScenarioB1, txScenarioB2].map Tx.riskScore).sum
        / (([txScenarioB1, txScenarioB2].length : ℕ) : ℚ) ∧
      |q.averageRiskScore - ([txScenarioB1, txScenarioB2].map Tx.riskScore).sum
        / (([txScenarioB1, txScenarioB2].length : ℕ) : ℚ)| ≤ 1 / 1000000000 :=
  C3_wallet_mean_invariant "0xaddrB" [txScenarioB1, txScenarioB2] (by simp)

end FraudDetection
